import Mathlib

/-!
Verification of the MSStoreIcons icon-generation pipeline.

The definitions below are a shallow embedding of `src/icon_generator.py` and
`src/image_processor.py`: the variant catalog (`SQUARE_CONFIGS`,
`WIDE_CONFIGS`, `ICO_SIZES`), the aspect-ratio validation policy, the
resize-and-sharpen render engine, the multisize ICO writer, and the
application-level selection/generation flow. Machine reals in the Python code
are modelled by exact rationals; external library calls (PIL resize, unsharp
mask, file writes) are modelled by deterministic Lean functions or, where the
code catches exceptions from them, by explicit `Except`-valued call
parameters.
-/

/-- An RGBA pixel, one byte per channel (`src/image_processor.py` works on
RGBA-mode images). -/
abbrev Pixel := Nat × Nat × Nat × Nat

/-- An in-memory decoded raster: natural width/height and the pixel raster.
Models a PIL `Image` in RGBA mode. -/
structure Img where
  width : Nat
  height : Nat
  pix : Nat → Nat → Pixel

instance : Inhabited Img := ⟨⟨0, 0, fun _ _ => (0, 0, 0, 0)⟩⟩

/-- The square-icon catalog, `SQUARE_CONFIGS` of `src/icon_generator.py`
lines 19-45: 20 (file name, width, height) entries. -/
def SQUARE_CONFIGS : List (String × Nat × Nat) :=
  [("Square44x44Logo.scale-100.png", 44, 44),
   ("Square44x44Logo.scale-125.png", 55, 55),
   ("Square44x44Logo.scale-150.png", 66, 66),
   ("Square44x44Logo.scale-200.png", 88, 88),
   ("Square44x44Logo.scale-400.png", 176, 176),
   ("Square44x44Logo.targetsize-16_altform-unplated.png", 16, 16),
   ("Square44x44Logo.targetsize-24_altform-unplated.png", 24, 24),
   ("Square44x44Logo.targetsize-32_altform-unplated.png", 32, 32),
   ("Square44x44Logo.targetsize-48_altform-unplated.png", 48, 48),
   ("Square44x44Logo.targetsize-256_altform-unplated.png", 256, 256),
   ("Square150x150Logo.scale-100.png", 150, 150),
   ("Square150x150Logo.scale-125.png", 188, 188),
   ("Square150x150Logo.scale-150.png", 225, 225),
   ("Square150x150Logo.scale-200.png", 300, 300),
   ("Square150x150Logo.scale-400.png", 600, 600),
   ("StoreLogo.scale-100.png", 50, 50),
   ("StoreLogo.scale-125.png", 63, 63),
   ("StoreLogo.scale-150.png", 75, 75),
   ("StoreLogo.scale-200.png", 100, 100),
   ("StoreLogo.scale-400.png", 200, 200)]

/-- The wide-icon catalog, `WIDE_CONFIGS` of `src/icon_generator.py`
lines 47-54: 5 entries on the 310x150 base. -/
def WIDE_CONFIGS : List (String × Nat × Nat) :=
  [("Wide310x150Logo.scale-100.png", 310, 150),
   ("Wide310x150Logo.scale-125.png", 388, 188),
   ("Wide310x150Logo.scale-150.png", 465, 225),
   ("Wide310x150Logo.scale-200.png", 620, 300),
   ("Wide310x150Logo.scale-400.png", 1240, 600)]

/-- The fixed size list for the multisize ICO container, `ICO_SIZES` of
`src/icon_generator.py` line 57. -/
def ICO_SIZES : List Nat := [16, 32, 48, 64, 128, 256, 512]

/-- The three icon modes selectable in the UI radio buttons: the values
"square", "wide" and "ico" of `icon_type_var` in `src/icon_generator.py`.
The spec calls them Square, Wide and MultiSizeContainer. -/
inductive VariantClass
  | square
  | wide
  | multiSizeContainer
deriving DecidableEq

/-- The catalog lookup: the ordered list of (width, height) render targets a
generation run iterates for a class. For square and wide these are the
config tables used by `generate_icons`; for the multisize container they are
the square frame sizes of `ICO_SIZES` used by `generate_ico_multisize`. -/
def targetsFor : VariantClass → List (Nat × Nat)
  | .square => SQUARE_CONFIGS.map (fun c => (c.2.1, c.2.2))
  | .wide => WIDE_CONFIGS.map (fun c => (c.2.1, c.2.2))
  | .multiSizeContainer => ICO_SIZES.map (fun z => (z, z))

/-- `width / height if height > 0 else 0`, the aspect-ratio expression of
`_validate_and_update_source_label` and `select_source_image`
(`src/icon_generator.py` lines 255, 261, 343, 356). -/
def aspect_ratio_of (width height : Nat) : ℚ :=
  if height > 0 then (width : ℚ) / (height : ℚ) else 0

/-- The pure validation computed by `_validate_and_update_source_label`
(`src/icon_generator.py` lines 242-265): the aspect ratio together with the
`is_valid` flag. For square and ico, `is_valid` is cleared when
`abs(ratio - 1.0) > 0.05`; for wide, when
`abs(ratio - 310/150) > 0.1`. -/
def validate_policy (width height : Nat) (icon_type : VariantClass) : ℚ × Bool :=
  let aspect_ratio := aspect_ratio_of width height
  match icon_type with
  | .square | .multiSizeContainer =>
      if |aspect_ratio - 1| > 5/100 then (aspect_ratio, false) else (aspect_ratio, true)
  | .wide =>
      if |aspect_ratio - (310 : ℚ)/150| > 1/10 then (aspect_ratio, false)
      else (aspect_ratio, true)

/-- `ImageProcessor.SHARPEN_THRESHOLD` (`src/image_processor.py` line 21). -/
def SHARPEN_THRESHOLD : Nat := 128

/-- `ImageProcessor.SHARPEN_PARAMS` (`src/image_processor.py` lines 24-28):
inclusive size ranges mapped to (radius, percent, threshold), in the
insertion order of the Python dict. -/
def SHARPEN_PARAMS : List ((Nat × Nat) × (ℚ × Nat × Nat)) :=
  [((0, 32), (6/10, 70, 3)),
   ((33, 64), (5/10, 50, 3)),
   ((65, 127), (4/10, 35, 3))]

/-- The parameter lookup inside `_apply_sharpening`
(`src/image_processor.py` lines 97-103): the first entry of
`SHARPEN_PARAMS` whose inclusive range holds `size`, defaulting to
(0.5, 50, 3) when none matches. -/
def sharpenParamsFor (size : Nat) : ℚ × Nat × Nat :=
  match SHARPEN_PARAMS.find? (fun e => decide (e.1.1 ≤ size ∧ size ≤ e.1.2)) with
  | some e => e.2
  | none => (5/10, 50, 3)

/-- Model of the external library call `img.resize((width, height), LANCZOS)`
(`src/image_processor.py` line 77): a deterministic pure function producing
a buffer at exactly the requested dimensions. The precise resampled pixel
values live in the external library; they are modelled by a fixed
deterministic sampling of the source raster. -/
def pilResize (img : Img) (width height : Nat) : Img :=
  { width := width, height := height,
    pix := fun x y => img.pix (x * img.width / width) (y * img.height / height) }

/-- Deterministic channel transform standing in for the unsharp-mask kernel:
below the threshold the channel is untouched, otherwise it is amplified by
the percent amount. -/
def sharpenChannel (percent threshold c : Nat) : Nat :=
  if threshold ≤ c then min 255 (c * (100 + percent) / 100) else c

/-- Model of the external library call
`img.filter(ImageFilter.UnsharpMask(radius, percent, threshold))`
(`src/image_processor.py` lines 107-113): a deterministic,
dimension-preserving pixel transform parameterized by the unsharp-mask
parameters. -/
def pilUnsharpMask (radius : ℚ) (percent threshold : Nat) (img : Img) : Img :=
  { width := img.width, height := img.height,
    pix := fun x y =>
      let p := img.pix x y
      (sharpenChannel percent threshold p.1,
       sharpenChannel percent threshold p.2.1,
       sharpenChannel percent threshold p.2.2.1,
       p.2.2.2) }

/-- `ImageProcessor._apply_sharpening` (`src/image_processor.py` lines
86-117), pure version: look up the band parameters and apply the
unsharp-mask filter. -/
def apply_sharpening (img : Img) (size : Nat) : Img :=
  let p := sharpenParamsFor size
  pilUnsharpMask p.1 p.2.1 p.2.2 img

/-- `ImageProcessor.resize_with_quality` (`src/image_processor.py` lines
62-84), pure version: LANCZOS resize, then sharpening when
`max(width, height) < SHARPEN_THRESHOLD`. -/
def resize_with_quality (img : Img) (width height : Nat) : Img :=
  let resized := pilResize img width height
  let max_dimension := max width height
  if max_dimension < SHARPEN_THRESHOLD then apply_sharpening resized max_dimension
  else resized

/-- The unsharp-mask library call as a fallible operation: given the
(radius, percent, threshold) parameters and an image, it either returns the
sharpened image or raises. -/
abbrev UnsharpCall := ℚ → Nat → Nat → Img → Except String Img

/-- The resize library call as a fallible operation. -/
abbrev ResizeCall := Img → Nat × Nat → Except String Img

/-- `ImageProcessor._apply_sharpening` with the exception flow of its
`try/except` block (`src/image_processor.py` lines 106-117) made explicit:
the filter call is a parameter; when it raises, the original image is
returned. -/
def apply_sharpening_exc (filterCall : UnsharpCall) (img : Img) (size : Nat) : Img :=
  let p := sharpenParamsFor size
  match filterCall p.1 p.2.1 p.2.2 img with
  | .ok sharpened => sharpened
  | .error _ => img

/-- `ImageProcessor.resize_with_quality` with fallible library calls made
explicit: the resize call has no surrounding handler, so its exception
propagates; the sharpening step is routed through
`apply_sharpening_exc`, which absorbs its failure. -/
def resize_with_quality_exc (resample : ResizeCall) (filterCall : UnsharpCall)
    (img : Img) (width height : Nat) : Except String Img :=
  match resample img (width, height) with
  | .error e => .error e
  | .ok resized =>
      let max_dimension := max width height
      if max_dimension < SHARPEN_THRESHOLD then
        .ok (apply_sharpening_exc filterCall resized max_dimension)
      else .ok resized

/-- `ImageProcessor.save_ico_multisize` (`src/image_processor.py` lines
140-160): raises ValueError on an empty list, otherwise writes
`images[0]` as the primary frame followed by `images[1:]` as appended
frames. The written file is modelled by its ordered frame list. -/
def save_ico_multisize (images : List Img) : Except String (List Img) :=
  if images.length = 0 then .error "No images provided for ICO generation"
  else if images.length > 1 then .ok (images.headI :: images.tail)
  else .ok [images.headI]

/-- `ImageProcessor.generate_ico_from_source` (`src/image_processor.py`
lines 175-200): sort the sizes descending (`sorted(sizes, reverse=True)`,
a stable sort), render every frame with `resize_with_quality`, then hand
the whole batch to `save_ico_multisize` in one call. Returns the rendered
frames together with the written file. -/
def generate_ico_from_source (source_img : Img) (sizes : List Nat) :
    List Img × Except String (List Img) :=
  let sizes_sorted := List.insertionSort (fun a b => a ≥ b) sizes
  let icon_images := sizes_sorted.map (fun size => resize_with_quality source_img size size)
  (icon_images, save_ico_multisize icon_images)

/-- The application state fields of `IconGeneratorApp` that the
generation flow reads: the loaded source image (modelled by its
dimensions), its path, the output directory, and the selected icon type. -/
structure AppState where
  source_image : Option (Nat × Nat)
  source_image_path : Option String
  output_directory : Option String
  icon_type : VariantClass

/-- The modal dialogs `select_source_image` can show: the blocking
`showerror` for square/ico aspect violations, and the `askyesno`
continue-anyway prompt for wide violations. -/
inductive DialogEvent
  | blockingError
  | warnPrompt
deriving DecidableEq

/-- `IconGeneratorApp.select_source_image` (`src/icon_generator.py` lines
307-372) for a successfully chosen and loaded file: the image and its path
are assigned first (lines 329-330); then, for square/ico, an aspect
violation shows a blocking error dialog and returns early, and for wide, a
violation shows a yes/no prompt and returns early when the user declines.
Every branch, the early returns included, leaves the newly loaded image
assigned in the state. `userContinue` is the user answer to the yes/no
prompt. -/
def select_source_image (s : AppState) (file_path : String)
    (width height : Nat) (userContinue : Bool) : AppState × List DialogEvent :=
  let s1 := { s with source_image := some (width, height),
                     source_image_path := some file_path }
  let aspect_ratio := aspect_ratio_of width height
  match s.icon_type with
  | .square | .multiSizeContainer =>
      if |aspect_ratio - 1| > 5/100 then (s1, [.blockingError])
      else (s1, [])
  | .wide =>
      if |aspect_ratio - (310 : ℚ)/150| > 1/10 then
        if userContinue then (s1, [.warnPrompt]) else (s1, [.warnPrompt])
      else (s1, [])

/-- The render calls of one generation run:
`generate_icons_threaded` + `generate_icons` + `generate_ico_multisize`
(`src/icon_generator.py` lines 391-489). The run refuses to start only when
no source path or no output directory is set; otherwise it renders every
catalog target of the selected class (for ico, the descending-sorted
`ICO_SIZES` frames rendered by `generate_ico_from_source`). Each element is
the (width, height) of one `resize_with_quality` render call. -/
def generate_icons_run (s : AppState) : List (Nat × Nat) :=
  if s.source_image_path = none then []
  else if s.output_directory = none then []
  else
    match s.icon_type with
    | .square => SQUARE_CONFIGS.map (fun c => (c.2.1, c.2.2))
    | .wide => WIDE_CONFIGS.map (fun c => (c.2.1, c.2.2))
    | .multiSizeContainer =>
        (List.insertionSort (fun a b => a ≥ b) ICO_SIZES).map (fun size => (size, size))

/-- A concrete source raster used by witnesses. -/
def testImg : Img := ⟨256, 256, fun _ _ => (10, 20, 30, 255)⟩

/-- C2: for every variant class the catalog is non-empty, and its length is
20 for square, 5 for wide and 7 for the multisize container. -/
theorem catalog_counts :
    (∀ c, targetsFor c ≠ [])
  ∧ (targetsFor .square).length = 20
  ∧ (targetsFor .wide).length = 5
  ∧ (targetsFor .multiSizeContainer).length = 7 := by
  refine ⟨fun c => ?_, by decide, by decide, by decide⟩
  cases c <;> decide

/-- C3: with positive height, the validation flag is set for square and for
the multisize container exactly when `|w/h - 1| ≤ 0.05`, and for wide
exactly when `|w/h - 310/150| ≤ 0.1`. -/
theorem validation_tolerance_iff (w h : Nat) (hh : 0 < h) :
    ((validate_policy w h .square).2 = true ↔ |(w : ℚ) / h - 1| ≤ 5/100)
  ∧ ((validate_policy w h .multiSizeContainer).2 = true ↔ |(w : ℚ) / h - 1| ≤ 5/100)
  ∧ ((validate_policy w h .wide).2 = true ↔ |(w : ℚ) / h - (310 : ℚ)/150| ≤ 1/10) := by
  have hr : aspect_ratio_of w h = (w : ℚ) / h := by
    simp [aspect_ratio_of, hh]
  refine ⟨?_, ?_, ?_⟩ <;>
    · simp only [validate_policy, hr]
      split_ifs with hc
      · simpa using not_le.mpr hc
      · simpa using not_lt.mp hc

/-- C3 witness at a 100x96 source for square and 300x150 for wide. -/
theorem validation_tolerance_iff_witness :
    ((validate_policy 100 96 .square).2 = true ↔ |(100 : ℚ) / 96 - 1| ≤ 5/100) :=
  (validation_tolerance_iff 100 96 (by decide)).1

/-- C5: for every width and class, a zero height makes the validation flag
false: the ratio expression evaluates to 0, outside every tolerance. -/
theorem zero_height_always_fails (w : Nat) (c : VariantClass) :
    (validate_policy w 0 c).2 = false := by
  have hr : aspect_ratio_of w 0 = 0 := by simp [aspect_ratio_of]
  have h1 : |(0 : ℚ) - 1| > 5/100 := by
    rw [zero_sub, abs_neg, abs_one]; norm_num
  have h2 : |(0 : ℚ) - (310 : ℚ)/150| > 1/10 := by
    rw [zero_sub, abs_neg, abs_of_nonneg (by norm_num : (0 : ℚ) ≤ (310 : ℚ)/150)]
    norm_num
  cases c
  · simp only [validate_policy, hr]
    rw [if_pos h1]
  · simp only [validate_policy, hr]
    rw [if_pos h2]
  · simp only [validate_policy, hr]
    rw [if_pos h1]

lemma sharpenParamsFor_band1 {m : Nat} (h : m ≤ 32) :
    sharpenParamsFor m = (6/10, 70, 3) := by
  unfold sharpenParamsFor SHARPEN_PARAMS
  rw [List.find?_cons_of_pos _ (by simp [h])]

lemma sharpenParamsFor_band2 {m : Nat} (h1 : 33 ≤ m) (h2 : m ≤ 64) :
    sharpenParamsFor m = (5/10, 50, 3) := by
  unfold sharpenParamsFor SHARPEN_PARAMS
  rw [List.find?_cons_of_neg _ (by simp; omega),
      List.find?_cons_of_pos _ (by simp [h1, h2])]

lemma sharpenParamsFor_band3 {m : Nat} (h1 : 65 ≤ m) (h2 : m ≤ 127) :
    sharpenParamsFor m = (4/10, 35, 3) := by
  unfold sharpenParamsFor SHARPEN_PARAMS
  rw [List.find?_cons_of_neg _ (by simp; omega),
      List.find?_cons_of_neg _ (by simp; omega),
      List.find?_cons_of_pos _ (by simp [h1, h2])]

/-- C6: band selection of the conditional sharpening step. With
`m = max(width, height)`: for `m` in [1,32] the resized buffer is
unsharp-masked with (0.6, 70, 3), for [33,64] with (0.5, 50, 3), for
[65,127] with (0.4, 35, 3), and for `m ≥ 128` the resized buffer is
returned with no sharpening at all. -/
theorem sharpening_band_selection (img : Img) (width height : Nat) :
    (1 ≤ max width height → max width height ≤ 32 →
      resize_with_quality img width height
        = pilUnsharpMask (6/10) 70 3 (pilResize img width height))
  ∧ (33 ≤ max width height → max width height ≤ 64 →
      resize_with_quality img width height
        = pilUnsharpMask (5/10) 50 3 (pilResize img width height))
  ∧ (65 ≤ max width height → max width height ≤ 127 →
      resize_with_quality img width height
        = pilUnsharpMask (4/10) 35 3 (pilResize img width height))
  ∧ (128 ≤ max width height →
      resize_with_quality img width height = pilResize img width height) := by
  refine ⟨fun _ h2 => ?_, fun h1 h2 => ?_, fun h1 h2 => ?_, fun h1 => ?_⟩
  · simp only [resize_with_quality, apply_sharpening]
    rw [if_pos (lt_of_le_of_lt h2 (by decide)), sharpenParamsFor_band1 h2]
  · simp only [resize_with_quality, apply_sharpening]
    rw [if_pos (lt_of_le_of_lt h2 (by decide)), sharpenParamsFor_band2 h1 h2]
  · simp only [resize_with_quality, apply_sharpening]
    rw [if_pos (lt_of_le_of_lt h2 (by decide)), sharpenParamsFor_band3 h1 h2]
  · simp only [resize_with_quality]
    rw [if_neg (not_lt.mpr (le_trans (by decide) h1))]

/-- C6 witness: a 16x16 target is sharpened with the (0.6, 70, 3) band. -/
theorem sharpening_band_selection_witness :
    resize_with_quality testImg 16 16
      = pilUnsharpMask (6/10) 70 3 (pilResize testImg 16 16) :=
  (sharpening_band_selection testImg 16 16).1 (by decide) (by decide)

lemma resize_width (img : Img) (width height : Nat) :
    (resize_with_quality img width height).width = width := by
  simp only [resize_with_quality, apply_sharpening, pilUnsharpMask, pilResize]
  split <;> rfl

lemma resize_height (img : Img) (width height : Nat) :
    (resize_with_quality img width height).height = height := by
  simp only [resize_with_quality, apply_sharpening, pilUnsharpMask, pilResize]
  split <;> rfl

/-- C9: the render produces a buffer at exactly the target dimensions, and,
being a pure function of (source, target), rendering the same pair twice
yields the identical image (dimensions and pixel data). -/
theorem render_dims_and_deterministic (img : Img) (width height : Nat) :
    (resize_with_quality img width height).width = width
  ∧ (resize_with_quality img width height).height = height
  ∧ resize_with_quality img width height = resize_with_quality img width height :=
  ⟨resize_width img width height, resize_height img width height, rfl⟩

/-- C7: the render raises exactly when the resample library call raises; a
failure of the sharpening library call is absorbed, the render then
returning the unsharpened resized buffer. -/
theorem sharpen_failure_nonfatal (resample : ResizeCall) (filterCall : UnsharpCall)
    (img : Img) (width height : Nat) :
    (∀ e, resize_with_quality_exc resample filterCall img width height = .error e
        ↔ resample img (width, height) = .error e)
  ∧ (∀ resized e, resample img (width, height) = .ok resized →
      filterCall (sharpenParamsFor (max width height)).1
          (sharpenParamsFor (max width height)).2.1
          (sharpenParamsFor (max width height)).2.2 resized = .error e →
      resize_with_quality_exc resample filterCall img width height = .ok resized) := by
  constructor
  · intro e
    unfold resize_with_quality_exc
    cases hres : resample img (width, height) with
    | error e2 => simp
    | ok resized =>
        simp only []
        constructor
        · intro hcontra
          split at hcontra <;> exact absurd hcontra (by simp)
        · intro hcontra
          exact absurd hcontra (by simp)
  · intro resized e hres hfil
    unfold resize_with_quality_exc
    rw [hres]
    simp only [apply_sharpening_exc, hfil]
    split <;> rfl

/-- C7 witness: with a succeeding resample and an always-raising unsharp
call, the render returns the resized buffer and raises nothing. -/
theorem sharpen_failure_nonfatal_witness :
    resize_with_quality_exc (fun _ _ => Except.ok testImg)
      (fun _ _ _ _ => Except.error "unsharp mask failed") testImg 16 16
      = Except.ok testImg :=
  (sharpen_failure_nonfatal (fun _ _ => Except.ok testImg)
    (fun _ _ _ _ => Except.error "unsharp mask failed") testImg 16 16).2
    testImg "unsharp mask failed" rfl rfl

/-- C1: the hard aspect-ratio check does not stop generation. Selecting a
200x100 source with the square class shows the blocking error dialog, yet
the image stays assigned in the state, and a subsequent generation run
(with an output directory set) still performs all 20 square render calls:
`select_source_image` assigns `source_image`/`source_image_path` before
validating and returns early without clearing them, and
`generate_icons_threaded`/`generate_icons` never re-validate. -/
theorem square_violation_still_renders :
    ((select_source_image ⟨none, none, some "out", .square⟩ "source.png" 200 100 true).2
        = [DialogEvent.blockingError])
  ∧ (generate_icons_run
        (select_source_image ⟨none, none, some "out", .square⟩ "source.png" 200 100 true).1).length
      = 20 := by
  have hr : aspect_ratio_of 200 100 = 2 := by norm_num [aspect_ratio_of]
  have hc : |(2 : ℚ) - 1| > 5/100 := by
    rw [show (2 : ℚ) - 1 = 1 from by norm_num, abs_one]
    norm_num
  have hsel : select_source_image ⟨none, none, some "out", .square⟩ "source.png" 200 100 true
      = (⟨some (200, 100), some "source.png", some "out", .square⟩,
         [DialogEvent.blockingError]) := by
    simp only [select_source_image, hr]
    rw [if_pos hc]
  constructor
  · rw [hsel]
  · rw [hsel]
    simp [generate_icons_run, SQUARE_CONFIGS]

/-- C4: a wide-class aspect violation is non-blocking. The validation
policy exposes the computed ratio together with the false
within-tolerance flag, the selection flow shows only the yes/no prompt,
and when the user continues, the generation run renders all 5 wide
targets. -/
theorem wide_violation_soft (w h : Nat) (out p : String) (hh : 0 < h)
    (hviol : |(w : ℚ) / h - (310 : ℚ)/150| > 1/10) :
    validate_policy w h .wide = ((w : ℚ) / h, false)
  ∧ (select_source_image ⟨none, none, some out, .wide⟩ p w h true).2
      = [DialogEvent.warnPrompt]
  ∧ (generate_icons_run
        (select_source_image ⟨none, none, some out, .wide⟩ p w h true).1).length = 5 := by
  have hr : aspect_ratio_of w h = (w : ℚ) / h := by simp [aspect_ratio_of, hh]
  have hsel : select_source_image ⟨none, none, some out, .wide⟩ p w h true
      = (⟨some (w, h), some p, some out, .wide⟩, [DialogEvent.warnPrompt]) := by
    simp only [select_source_image, hr]
    rw [if_pos hviol]
    split <;> rfl
  refine ⟨?_, ?_, ?_⟩
  · simp only [validate_policy, hr]
    rw [if_pos hviol]
  · rw [hsel]
  · rw [hsel]
    simp [generate_icons_run, WIDE_CONFIGS]

/-- C4 witness at a 400x150 source (ratio 8/3, outside the 0.1 tolerance
around 310/150). -/
theorem wide_violation_soft_witness :
    validate_policy 400 150 .wide = ((400 : ℚ) / 150, false)
  ∧ (select_source_image ⟨none, none, some "out", .wide⟩ "wide.png" 400 150 true).2
      = [DialogEvent.warnPrompt]
  ∧ (generate_icons_run
        (select_source_image ⟨none, none, some "out", .wide⟩ "wide.png" 400 150 true).1).length
      = 5 :=
  wide_violation_soft 400 150 "out" "wide.png" (by norm_num)
    (by
      have h : ((400 : ℕ) : ℚ) / ((150 : ℕ) : ℚ) - (310 : ℚ)/150 = 3/5 := by
        norm_num
      rw [h, abs_of_pos (by norm_num : (0 : ℚ) < 3/5)]
      norm_num)

lemma save_ico_ok_of_ne_nil (images : List Img) (h : images ≠ []) :
    save_ico_multisize images = .ok images := by
  match images with
  | [] => exact absurd rfl h
  | i0 :: rest =>
      cases rest with
      | nil => simp [save_ico_multisize]
      | cons b t => simp [save_ico_multisize, List.headI]

/-- C8: the multisize container generation renders all frames first and
persists them as one batch whose widths are strictly descending (for an
input size list without duplicates, in any order), and for any ordering of
the built-in `ICO_SIZES` the persisted batch starts with the 512 frame. -/
theorem container_descending (source_img : Img) (sizes : List Nat) (hnd : sizes.Nodup) :
    ((generate_ico_from_source source_img sizes).1.map Img.width).Pairwise (· > ·)
  ∧ (sizes ≠ [] →
      (generate_ico_from_source source_img sizes).2
        = .ok (generate_ico_from_source source_img sizes).1)
  ∧ (sizes.Perm ICO_SIZES →
      ((generate_ico_from_source source_img sizes).1.map Img.width).head? = some 512) := by
  have hmapw : (generate_ico_from_source source_img sizes).1.map Img.width
      = List.insertionSort (fun a b => a ≥ b) sizes := by
    simp only [generate_ico_from_source, List.map_map]
    have hcomp : (Img.width ∘ fun z => resize_with_quality source_img z z) = fun z => z := by
      funext z
      simp [Function.comp, resize_width]
    rw [hcomp]
    exact List.map_id _
  have hsorted : (List.insertionSort (fun a b => a ≥ b) sizes).Sorted (fun a b => a ≥ b) :=
    List.sorted_insertionSort _ sizes
  have hperm : (List.insertionSort (fun a b => a ≥ b) sizes).Perm sizes :=
    List.perm_insertionSort _ sizes
  refine ⟨?_, ?_, ?_⟩
  · rw [hmapw]
    have hnodup : (List.insertionSort (fun a b => a ≥ b) sizes).Nodup :=
      (List.Perm.nodup_iff hperm).mpr hnd
    exact (List.Pairwise.and hsorted hnodup).imp
      (fun hab => lt_of_le_of_ne hab.1 (Ne.symm hab.2))
  · intro hne
    have hLne : List.insertionSort (fun a b => a ≥ b) sizes ≠ [] := by
      intro h0
      exact hne ((h0 ▸ hperm).symm.eq_nil)
    have himg : (generate_ico_from_source source_img sizes).1 ≠ [] := by
      simp only [generate_ico_from_source]
      intro h0
      exact hLne (by simpa using h0)
    exact save_ico_ok_of_ne_nil _ himg
  · intro hp
    have hL : List.insertionSort (fun a b => a ≥ b) sizes
        = [512, 256, 128, 64, 48, 32, 16] := by
      refine List.eq_of_perm_of_sorted ?_ hsorted (by decide)
      exact hperm.trans (hp.trans (by decide))
    rw [hmapw, hL]
    rfl

/-- C8 witness: a scrambled ordering of the built-in sizes yields a
strictly descending persisted batch starting at 512, written in one call. -/
theorem container_descending_witness :
    ((generate_ico_from_source testImg [32, 512, 16, 64, 48, 256, 128]).1.map
        Img.width).Pairwise (· > ·)
  ∧ (generate_ico_from_source testImg [32, 512, 16, 64, 48, 256, 128]).2
      = .ok (generate_ico_from_source testImg [32, 512, 16, 64, 48, 256, 128]).1
  ∧ ((generate_ico_from_source testImg [32, 512, 16, 64, 48, 256, 128]).1.map
        Img.width).head? = some 512 :=
  let h := container_descending testImg [32, 512, 16, 64, 48, 256, 128] (by decide)
  ⟨h.1, h.2.1 (by decide), h.2.2 (by decide)⟩

/-- C10: writing the multisize container raises exactly on an empty frame
list; on any non-empty list the file holds the frames in the given order,
its first (largest) frame being the primary frame. -/
theorem ico_save_empty_iff (images : List Img) :
    ((∃ e, save_ico_multisize images = .error e) ↔ images = [])
  ∧ (images ≠ [] → save_ico_multisize images = .ok images) := by
  constructor
  · constructor
    · rintro ⟨e, he⟩
      by_contra hne
      rw [save_ico_ok_of_ne_nil images hne] at he
      exact absurd he (by simp)
    · rintro rfl
      exact ⟨"No images provided for ICO generation", rfl⟩
  · exact save_ico_ok_of_ne_nil images

/-- C10 witness: a singleton frame list is written as-is. -/
theorem ico_save_empty_iff_witness :
    save_ico_multisize [testImg] = .ok [testImg] :=
  (ico_save_empty_iff [testImg]).2 (by simp)
